import Mathlib

/-!
Verification of the case status-change / notification / payment-reconciliation
core of the ticket-intake backend.

The JavaScript sources are shallowly embedded as Lean definitions:

* src/services/statusService.js  — the Status Change Detector (idempotency set,
  per-case rate limiting, validation gate, audit log, async dispatch).  Note
  that processStatusChange reads change.doc.previous.data() although a
  Firestore DocumentChange has no previous property, so every modified event
  throws there; the embedding models that crash and keeps the unreachable
  validation/rate-limit/notify machinery as the separate functions the
  source defines.
* the StatusNotification modules — the Notifier (input validation, templates,
  sendEmailWithRetry, maskEmail).
* the Stripe webhook route and its helpers — the Payment Reconciler
  (checkout.session.completed, payment-failure events, checkout.session.expired,
  AlertService.createPaymentFailedAlert, saveToFirestore, PhoneHelper).

Conventions of the embedding:

* A JavaScript string field that may be absent is an Option String; the
  JavaScript truthiness test (missing, undefined or empty string are falsy)
  is the function jsTruthy.
* Date.now() values and Firestore timestamps are Int milliseconds, supplied
  explicitly as parameters.
* External operations (Firestore reads/writes, the Brevo messaging gateway)
  are modelled by explicit outcome parameters; a thrown exception is an
  error value that the embedding propagates exactly where the source
  try/catch structure does.
-/

namespace TicketGuy

/-- JavaScript truthiness for a possibly-missing string field:
missing and the empty string are falsy. -/
def jsTruthy : Option String → Bool
  | none => false
  | some s => !s.isEmpty

/-- JavaScript `a || b` on possibly-missing strings: yields `a` when truthy,
otherwise `b` (the result itself may be falsy). -/
def jsOr (a b : Option String) : Option String :=
  if jsTruthy a then a else b

/-- One entry of a statusHistory array. The creation path writes
`updatedBy`/`notes` keys while the payment handlers write a `note` key; all
three are kept as optional fields so the three writers can be compared. -/
structure HistEntry where
  status : String
  timestamp : Int
  note : Option String := none
  notes : Option String := none
  updatedBy : Option String := none
deriving DecidableEq, Repr

/-- The slice of extractedData read by this core: the nested email used as a
fallback by the payment-failure handler and the nested phone locations read
by PhoneHelper. -/
structure ExtractedData where
  email : Option String := none
  phoneNumber : Option String := none
  violatorPhone : Option String := none
deriving DecidableEq, Repr

/-- An entry of the emailsSent / smsSent send log kept on the case record. -/
structure SendLogEntry where
  logType : String
  toAddr : String
  sendStatus : String
  errorMsg : Option String := none
deriving DecidableEq, Repr

/-- The slice of a case (ticket) document read or written by this core. -/
structure CaseDoc where
  status : Option String := none
  processingStatus : Option String := none
  caseStatus : Option String := none
  paymentStatus : Option String := none
  email : Option String := none
  clientMessages : List (String × String) := []
  smsOptedIn : Option Bool := none
  sessionId : Option String := none
  userId : Option String := none
  fileName : Option String := none
  dataSource : Option String := none
  extractedData : Option ExtractedData := none
  statusHistory : List HistEntry := []
  emailsSent : List SendLogEntry := []
  smsSent : List SendLogEntry := []
  adminAlerts : List String := []
  smsOptIn : Option Bool := none
  phoneNumber : Option String := none
  phone : Option String := none
  formPhone : Option String := none
  formPhoneNumber : Option String := none
  formMobileno : Option String := none
  contactPhone : Option String := none
  userPhone : Option String := none
  stripePaymentIntentId : Option String := none
deriving DecidableEq, Repr

/-- Firestore FieldValue.arrayUnion with a single element: the element is
appended only when it is not already present in the array. -/
def arrayUnion {α : Type} [DecidableEq α] (xs : List α) (x : α) : List α :=
  if x ∈ xs then xs else xs ++ [x]

/-- Status of the last statusHistory entry of a document, when any. -/
def lastHistoryStatus (d : CaseDoc) : Option String :=
  (d.statusHistory.getLast?).map (·.status)

/-! ## Status Change Detector (src/services/statusService.js) -/

/-- The six recognized case statuses (statusService.isValidStatusChange). -/
def validStatuses : List String :=
  ["approval_pending", "case_approved", "case_in_progress",
   "case_appealed", "requires_attention", "case_dismissed"]

/-- statusService.isValidStatusChange: both snapshots and both caseStatus
fields must be truthy, the status must have changed, the new status must be
one of the six recognized values, and the new document must carry an email
field that is a (truthy) string.  No email syntax check happens here. -/
def isValidStatusChange (oldData newData : Option CaseDoc) : Bool :=
  match oldData, newData with
  | some o, some n =>
    jsTruthy o.caseStatus && jsTruthy n.caseStatus &&
    !(o.caseStatus == n.caseStatus) &&
    validStatuses.contains (n.caseStatus.getD "") &&
    jsTruthy n.email
  | _, _ => false

/-- Lookup in the in-memory rate-limit map (`this.rateLimit.get(caseId) || []`). -/
def rlGet (m : List (String × List Int)) (caseId : String) : List Int :=
  match m.find? (fun p => p.1 == caseId) with
  | some p => p.2
  | none => []

/-- Store a timestamp list under a case ID in the rate-limit map. -/
def rlSet (m : List (String × List Int)) (caseId : String) (v : List Int) :
    List (String × List Int) :=
  if m.any (fun p => p.1 == caseId) then
    m.map (fun p => if p.1 == caseId then (p.1, v) else p)
  else
    m ++ [(caseId, v)]

/-- statusService.isRateLimited: at least 5 recorded timestamps within the
trailing 60 seconds.  Only reads the map; the filtered list is not stored. -/
def isRateLimited (m : List (String × List Int)) (caseId : String) (now : Int) : Bool :=
  let oneMinuteAgo := now - 60 * 1000
  let timestamps := (rlGet m caseId).filter (fun ts => oneMinuteAgo < ts)
  decide (5 ≤ timestamps.length)

/-- statusService.updateRateLimit: push the current time onto the list for
the case (no filtering here). -/
def updateRateLimit (m : List (String × List Int)) (caseId : String) (now : Int) :
    List (String × List Int) :=
  rlSet m caseId (rlGet m caseId ++ [now])

/-- statusService.cleanupRateLimits: hourly housekeeping, drops timestamps
older than one hour and removes empty entries. -/
def cleanupRateLimits (m : List (String × List Int)) (now : Int) :
    List (String × List Int) :=
  let oneHourAgo := now - 60 * 60 * 1000
  (m.map (fun p => (p.1, p.2.filter (fun ts => oneHourAgo < ts)))).filter
    (fun p => !p.2.isEmpty)

/-- An audit-log record written by statusService.logStatusChange. -/
structure AuditRecord where
  caseId : String
  oldStatus : String
  newStatus : String
deriving DecidableEq, Repr

/-- The admin_alerts record written by statusService.sendAdminAlert. -/
structure StatusAlert where
  alertType : String
  caseId : String
  errMsg : String
deriving DecidableEq, Repr

/-- Process-local mutable state of the Detector plus the observable side
effects accumulated so far.  `audits` and `dispatches` are the effects the
continuation of processStatusChange would record (the audit log write and
the sendNotificationsAsync dispatch); both writers sit after the snapshot
read that throws, so no reachable run ever extends them.  `alerts` records
the admin alerts written by sendAdminAlert from the catch block. -/
structure DetState where
  processingIds : List String := []
  rateLimit : List (String × List Int) := []
  audits : List AuditRecord := []
  dispatches : List (String × String) := []
  alerts : List StatusAlert := []
deriving DecidableEq, Repr

/-- The message of the TypeError thrown at the
change.doc.previous.data() read of processStatusChange: a Firestore
DocumentChange exposes only type, doc, oldIndex and newIndex, so
change.doc.previous is undefined and calling .data() on it throws.  The
wording is the V8 runtime text (it varies across Node versions); the
embedding relies only on an error being thrown there, not on this text. -/
def previousReadMsg : String :=
  "Cannot read properties of undefined (reading \x27data\x27)"

/-- One scheduled processStatusChange invocation for a modified document
change.  The change carries the current document data (and, in intent, the
previous one), but the handler crashes before successfully reading either,
so oldData and newData are never consulted. -/
structure DetTask where
  caseId : String
  oldData : Option CaseDoc
  newData : Option CaseDoc
  time : Int
deriving DecidableEq, Repr

/-- statusService.processStatusChange as it actually executes.  The
idempotency check and the rate-limit check run first; then the try block
adds the case ID to the processing set and immediately reads
change.doc.previous.data() — but a Firestore DocumentChange has no
previous property, so that read throws a TypeError synchronously.  The
catch records one status_processing_error admin alert (sendAdminAlert) and
the finally block removes the ID again, leaving the processing set as it
was.  Everything from the validation gate through the audit log, the
notification dispatch and updateRateLimit sits after the throwing read and
is unreachable, and the invocation completes without reaching any await,
so the processing set is occupied only inside this one synchronous block. -/
def processStatusChange (s : DetState) (t : DetTask) : DetState :=
  if s.processingIds.contains t.caseId then s
  else if isRateLimited s.rateLimit t.caseId t.time then s
  else
    { s with alerts :=
        s.alerts ++ [⟨"status_processing_error", t.caseId, previousReadMsg⟩] }

/-- A batch of modified events: each setImmediate callback runs its
processStatusChange invocation to completion — the invocation is entirely
synchronous — so the events are processed sequentially in order. -/
def runEvents (s : DetState) (ts : List DetTask) : DetState :=
  ts.foldl processStatusChange s

/-! ## Notifier (StatusNotification modules) -/

/-- Split a character list at every occurrence of a separator, the
semantics of the JavaScript String.split with a single-character
separator (structurally recursive so that proofs can evaluate it). -/
def splitOnChar (sep : Char) : List Char → List (List Char)
  | [] => [[]]
  | c :: rest =>
    let r := splitOnChar sep rest
    if c == sep then [] :: r
    else
      match r with
      | [] => [[c]]
      | h :: t => (c :: h) :: t

/-- JavaScript `s.split(sep)` for a one-character separator. -/
def jsSplit (s : String) (sep : Char) : List String :=
  (splitOnChar sep s.toList).map String.mk

/-- JavaScript `s.substring(0, n)` / `s.slice(0, n)`. -/
def strTake (s : String) (n : Nat) : String :=
  String.mk (s.toList.take n)

/-- Remove angle brackets from a string (the `replace(/[<>]/g, ...)` step of
getStatusMessage and sanitizeUserData). -/
def stripAngles (s : String) : String :=
  String.mk (s.toList.filter (fun c => c ≠ '<' && c ≠ '>'))

/-- Whether a character list has a dot that is neither the first nor the
last character: the list splits as M ++ [dot] ++ Z with M and Z nonempty. -/
def hasInternalDot : List Char → Bool
  | [] => false
  | _ :: rest => rest.dropLast.contains '.'

/-- The email test regex of the Notifier, `[^\s@]+ at-sign [^\s@]+ dot
[^\s@]+` anchored on both sides.  A string matches exactly when it has a
single at-sign with nonempty whitespace-free parts on each side, and the
domain part has a dot with at least one character before and after it (the
trailing character class may itself contain further dots). -/
def emailRegexTest (s : String) : Bool :=
  match jsSplit s '@' with
  | [a, b] =>
    !a.isEmpty && !b.isEmpty &&
    a.toList.all (fun c => !c.isWhitespace) &&
    b.toList.all (fun c => !c.isWhitespace) &&
    hasInternalDot b.toList
  | _ => false

/-- StatusNotification.maskEmail of the Notifier in use: keep the first two
characters of the local part and append a single asterisk when the local
part is longer than two characters, otherwise two asterisks; the domain is
kept intact. -/
def maskEmail (email : String) : String :=
  let parts := jsSplit email '@'
  let name := (parts[0]?).getD ""
  let domain := (parts[1]?).getD ""
  if name.isEmpty || domain.isEmpty then "unknown"
  else
    let masked := if 2 < name.length then strTake name 2 ++ "*" else "**"
    masked ++ "@" ++ domain

/-- maskEmail of the hardened StatusNotification variant: one asterisk per
hidden character of the local part. -/
def maskEmailSecure (email : String) : String :=
  if email.isEmpty then "unknown"
  else
    let parts := jsSplit email '@'
    let name := (parts[0]?).getD ""
    let domain := (parts[1]?).getD ""
    if name.isEmpty || domain.isEmpty then "invalid"
    else
      let masked :=
        if 2 < name.length then
          strTake name 2 ++ String.mk (List.replicate (name.length - 2) '*')
        else "**"
      masked ++ "@" ++ domain

/-- StatusNotification.validateInputs: recognized status, truthy email,
email matches the regex.  Errors carry the thrown message. -/
def validateInputs (status : String) (caseData : CaseDoc) : Except String Unit :=
  if !validStatuses.contains status then
    .error ("Invalid status: " ++ status)
  else if !jsTruthy caseData.email then
    .error "Email required"
  else if !emailRegexTest (caseData.email.getD "") then
    .error "Invalid email format"
  else
    .ok ()

/-- StatusNotification.getStatusMessage: the clientMessages entry for the
status, angle brackets stripped and capped at 500 characters; empty when
absent. -/
def getStatusMessage (caseData : CaseDoc) (status : String) : String :=
  match (caseData.clientMessages.find? (fun p => p.1 == status)).map (·.2) with
  | some m => strTake (stripAngles m) 500
  | none => ""

/-- String sanitization applied to every string field by sanitizeUserData:
angle brackets stripped, capped at 1000 characters. -/
def sanitizeStr (s : String) : String :=
  strTake (stripAngles s) 1000

/-- Email template of the Notifier; the html body text is carried verbatim
by the source but referenced by no claim, so only the subject line is kept
here.  Lookup fails for an unrecognized status (hard error in the source). -/
def getTemplateSubject (status : String) : Option String :=
  if status == "approval_pending" then some "Update: Case Now Approval Pending"
  else if status == "case_approved" then some "✅ Approved - Moving Forward!"
  else if status == "case_in_progress" then some "🔄 Case Now In Progress"
  else if status == "case_appealed" then some "📋 Case Now Appealed"
  else if status == "requires_attention" then
    some "⚠️ Action Needed: \x7b\x7bcase_id\x7d\x7d"
  else if status == "case_dismissed" then
    some "🎉 Case \x7b\x7bcase_id\x7d\x7d DISMISSED!"
  else none

/-- Outcome of one sendEmailWithRetry invocation: whether some attempt
succeeded, how many gateway attempts were made, the backoff sleeps
performed between attempts (milliseconds), and the error of the last
attempt when all failed. -/
structure RetryResult where
  ok : Bool
  attempts : Nat
  delays : List Nat
  lastError : Option String
deriving DecidableEq, Repr

/-- The retry loop of StatusNotification.sendEmailWithRetry, unrolled on a
fuel argument that bounds the remaining iterations.  `gw n` is the outcome
of the n-th gateway attempt (1-based): `none` is success, `some msg` a
failure with message `msg`.  A failing attempt short of attempt
`maxRetries` sleeps `2000 * attempt` milliseconds and retries; failure at
attempt `maxRetries` rethrows the gateway error. -/
def retryFrom (gw : Nat → Option String) (maxRetries : Nat) :
    Nat → Nat → RetryResult
  | 0, _ => ⟨false, 0, [], none⟩
  | fuel + 1, attempt =>
    match gw attempt with
    | none => ⟨true, 1, [], none⟩
    | some err =>
      if attempt == maxRetries then ⟨false, 1, [], some err⟩
      else
        let r := retryFrom gw maxRetries fuel (attempt + 1)
        ⟨r.ok, r.attempts + 1, 2000 * attempt :: r.delays, r.lastError⟩

/-- StatusNotification.sendEmailWithRetry with its default of 3 attempts. -/
def sendEmailWithRetry (gw : Nat → Option String) (maxRetries : Nat := 3) :
    RetryResult :=
  retryFrom gw maxRetries maxRetries 1

/-- The notification_logs record written by logNotification: the stored
email is the masked address, never the raw one. -/
structure NotifLogRecord where
  logType : String
  caseId : String
  status : String
  maskedEmail : String
deriving DecidableEq, Repr

/-- Observable effects of one successful sendForStatus invocation. -/
structure NotifyEffects where
  retry : RetryResult
  emailTo : String
  smsAttempted : Bool
  reviewScheduledFor : Option Int
  notifLog : NotifLogRecord
deriving DecidableEq, Repr

/-- StatusNotification.sendForStatus: validate inputs, derive the status
message, prepare the email data (template lookup is a hard error for an
unknown status, the recipient address passes through sanitizeUserData),
send with retry — a retry exhaustion rethrows the last gateway error — then
optionally send the SMS stub, schedule the review request 24h later for
case_dismissed, and write the notification log with the masked address. -/
def sendForStatus (status : String) (caseData : CaseDoc) (caseId : String)
    (gw : Nat → Option String) (now : Int) : Except String NotifyEffects :=
  match validateInputs status caseData with
  | .error e => .error e
  | .ok _ =>
    match getTemplateSubject status with
    | none => .error ("No template for " ++ status)
    | some _ =>
      let toAddr := sanitizeStr (caseData.email.getD "")
      let r := sendEmailWithRetry gw 3
      if !r.ok then .error ((r.lastError).getD "")
      else
        let smsAttempted :=
          (caseData.smsOptedIn == some true) && jsTruthy caseData.phone
        let review :=
          if status == "case_dismissed" then some (now + 24 * 60 * 60 * 1000)
          else none
        .ok ⟨r, toAddr, smsAttempted, review,
             ⟨"email_sent", caseId, status, maskEmail (caseData.email.getD "")⟩⟩

/-- statusService.sendNotificationsAsync: one call to the Notifier; on any
failure, sleep 5 seconds and try the whole Notifier call once more.  The
two invocations draw their gateway outcomes from `gw1` and `gw2`.  The
second component records whether the fallback retry ran. -/
def sendNotificationsAsync (status : String) (caseData : CaseDoc)
    (caseId : String) (gw1 gw2 : Nat → Option String) (now : Int) :
    Except String NotifyEffects × Bool :=
  match sendForStatus status caseData caseId gw1 now with
  | .ok e => (.ok e, false)
  | .error _ => (sendForStatus status caseData caseId gw2 (now + 5000), true)

/-- The notification dispatch of processStatusChange step 5: the
sendNotificationsAsync promise with its `catch` handler, which converts a
final failure into exactly one status_processing_error admin alert carrying
the case ID and the message of the error that reached the handler. -/
def dispatchNotifications (status : String) (caseData : CaseDoc)
    (caseId : String) (gw1 gw2 : Nat → Option String) (now : Int) :
    List StatusAlert :=
  match (sendNotificationsAsync status caseData caseId gw1 gw2 now).1 with
  | .ok _ => []
  | .error e => [⟨"status_processing_error", caseId, e⟩]

/-! ## PhoneHelper (src/utils/phoneHelper.js) -/

/-- Digits of a string (the `replace(/\D/g, ...)` cleanup). -/
def digitsOnly (s : String) : String :=
  String.mk (s.toList.filter Char.isDigit)

/-- PhoneHelper.isValidPhone: a present string whose digits number at least
ten. -/
def isValidPhone : Option String → Bool
  | none => false
  | some s => !s.isEmpty && decide (10 ≤ (digitsOnly s).length)

/-- PhoneHelper.findPhoneNumber: the candidate locations in source order;
the first valid one wins. -/
def findPhoneNumber (d : CaseDoc) : Option String :=
  let candidates : List (Option String) :=
    [d.phoneNumber,
     d.extractedData.bind (·.phoneNumber),
     d.extractedData.bind (·.violatorPhone),
     d.formPhone, d.formPhoneNumber, d.formMobileno,
     d.phone, d.contactPhone, d.userPhone]
  ((candidates.find? (fun c => isValidPhone c)).getD none)

/-- PhoneHelper.formatForSms: digits with a plus-one prefix for bare
ten-digit numbers, a plus for everything else. -/
def formatForSms (phone : String) : Option String :=
  if phone.isEmpty then none
  else
    let digits := digitsOnly phone
    if digits.length == 10 then some ("+1" ++ digits)
    else if digits.length == 11 && digits.toList.head? == some '1' then some ("+" ++ digits)
    else some ("+" ++ digits)

/-- Result of PhoneHelper.shouldSendSms. -/
structure SmsCheck where
  shouldSend : Bool
  phoneNumber : Option String
  reason : String
deriving DecidableEq, Repr

/-- PhoneHelper.shouldSendSms: SMS goes out only when smsOptIn is exactly
true and a valid phone number was found. -/
def shouldSendSms (d : CaseDoc) : SmsCheck :=
  let isOptedIn := d.smsOptIn == some true
  let formatted :=
    match findPhoneNumber d with
    | some p => formatForSms p
    | none => none
  if !isOptedIn then ⟨false, formatted, "User not opted-in for SMS"⟩
  else
    match formatted with
    | none => ⟨false, none, "No valid phone number found"⟩
    | some p => ⟨true, some p, "Ready to send SMS"⟩

/-! ## Payment Reconciler (Stripe webhook route and helpers) -/

/-- saveToFirestore: the merge-set that creates or refreshes a ticket after
extraction or manual form submission.  Merge semantics keep fields the set
does not mention (for instance paymentStatus) but replace array fields
wholesale, so statusHistory becomes the one-element creation history even
on an existing document.  The fixed clientMessages texts of the source are
referenced by no claim and are left untouched here. -/
def saveToFirestore (existing : Option CaseDoc) (sessionId userId : String)
    (extracted : ExtractedData) (filename : String) (email : Option String)
    (dataSource : String) (t : Int) : CaseDoc :=
  let base := existing.getD {}
  let st := if dataSource == "manual_form" then "completed" else "extracted"
  let statusNote :=
    if dataSource == "manual_form" then
      "Manual form submitted with complete information"
    else
      "Ticket uploaded and AI extraction completed"
  { base with
    status := some st
    processingStatus := some "completed"
    extractedData := some extracted
    userId := some userId
    email := email
    fileName := some filename
    sessionId := some sessionId
    dataSource := some dataSource
    caseStatus := some "approval_pending"
    statusHistory := [⟨"approval_pending", t, none, some statusNote, some "system"⟩] }

/-- The Firestore update of the checkout.session.completed handler:
paymentStatus paid, caseStatus submitted_for_review, the Stripe payment
intent recorded, and a payment_received entry arrayUnion-ed onto
statusHistory. -/
def checkoutCompletedUpdate (d : CaseDoc) (paymentIntent : Option String)
    (t : Int) : CaseDoc :=
  { d with
    paymentStatus := some "paid"
    caseStatus := some "submitted_for_review"
    stripePaymentIntentId := paymentIntent
    statusHistory := arrayUnion d.statusHistory
      ⟨"payment_received", t, some "Customer completed payment via Stripe.",
       none, none⟩ }

/-- The Firestore update of the payment-failure handler: paymentStatus
failed and a payment_failed entry arrayUnion-ed onto statusHistory;
caseStatus is not touched. -/
def paymentFailedUpdate (d : CaseDoc) (errorReason : String) (t : Int) :
    CaseDoc :=
  { d with
    paymentStatus := some "failed"
    statusHistory := arrayUnion d.statusHistory
      ⟨"payment_failed", t, some ("Payment failed: " ++ errorReason),
       none, none⟩ }

/-- Return value of brevoService.sendEmail as consumed by the webhook. -/
structure EmailSendResult where
  success : Bool
  messageId : Option String := none
  error : Option String := none
deriving DecidableEq, Repr

/-- Return value of brevoService.sendSMS as consumed by the webhook. -/
structure SmsSendResult where
  success : Bool
  error : Option String := none
  disabled : Bool := false
deriving DecidableEq, Repr

/-- Outcomes of the external operations a webhook handler performs.  A
false/error value stands for the operation throwing (get, update, the
send-log updates, alert creation) or for the gateway returning a failure
result; the handlers catch these exactly where the source does. -/
structure FsEnv where
  getOk : Bool := true
  updateOk : Bool := true
  logUpdateOk : Bool := true
  emailSend : Except String EmailSendResult := .ok ⟨true, some "msg-1", none⟩
  smsSend : Except String SmsSendResult := .ok ⟨true, none, false⟩
  alertCreateOk : Bool := true
  alertId : String := "alert_1"
deriving Repr

/-- One call of the messaging gateway made by a webhook handler. -/
structure PayAttempt where
  toAddr : String
  tag : String
deriving DecidableEq, Repr

/-- The admin_alerts record written by AlertService.createPaymentFailedAlert:
always of type payment_failed, carrying the case (session) ID, the client
email and the Stripe error reason. -/
structure AdminAlert where
  alertType : String
  caseId : Option String
  clientEmail : Option String
  reason : String
deriving DecidableEq, Repr

/-- AlertService.createPaymentFailedAlert, reduced to the alert fields the
claims mention (type, case reference, client info, error reason). -/
def createPaymentFailedAlert (d : CaseDoc) (errorReason : String) : AdminAlert :=
  ⟨"payment_failed", d.sessionId, d.email, errorReason⟩

/-- Observable effects of one webhook event: the resulting stored document
and the gateway calls and alerts made while handling it. -/
structure PayEffects where
  store : Option CaseDoc
  emails : List PayAttempt := []
  smses : List String := []
  alerts : List AdminAlert := []
deriving DecidableEq, Repr

/-- The success-email block of the checkout.session.completed handler (its
inner try/catch): attempted exactly when the pre-update email is truthy;
the outcome (including a thrown error) never escapes; success and failure
are logged onto emailsSent when the log update itself works. -/
def completedEmailStep (env : FsEnv) (d1 : CaseDoc) (em : Option String) :
    CaseDoc × List PayAttempt :=
  if jsTruthy em then
    let toAddr := em.getD ""
    let att := [(⟨toAddr, "payment_success"⟩ : PayAttempt)]
    match env.emailSend with
    | .error _ => (d1, att)
    | .ok r =>
      if r.success then
        (if env.logUpdateOk then
           { d1 with emailsSent :=
               arrayUnion d1.emailsSent ⟨"payment_paid", toAddr, "sent", none⟩ }
         else d1, att)
      else
        (if env.logUpdateOk then
           { d1 with emailsSent :=
               arrayUnion d1.emailsSent ⟨"payment_paid", toAddr, "failed", r.error⟩ }
         else d1, att)
  else (d1, [])

/-- The conditional SMS block of the completed handler (its inner
try/catch): attempted per shouldSendSms; success is logged, a
non-feature-flag failure is logged, a disabled gateway is a silent no-op. -/
def completedSmsStep (env : FsEnv) (d2 : CaseDoc) (check : SmsCheck) :
    CaseDoc × List String :=
  if check.shouldSend && jsTruthy check.phoneNumber then
    let p := check.phoneNumber.getD ""
    match env.smsSend with
    | .error _ => (d2, [p])
    | .ok r =>
      if r.success then
        (if env.logUpdateOk then
           { d2 with smsSent :=
               arrayUnion d2.smsSent ⟨"payment_paid", p, "sent", none⟩ }
         else d2, [p])
      else if !r.disabled then
        (if env.logUpdateOk then
           { d2 with smsSent :=
               arrayUnion d2.smsSent ⟨"payment_paid", p, "failed", r.error⟩ }
         else d2, [p])
      else (d2, [p])
  else (d2, [])

/-- The checkout.session.completed handler.  The whole body sits in one
try/catch (a get or update throw ends it silently); the success email and
the SMS each have their own inner try/catch, so their failures never stop
the handler.  No alert is ever created here. -/
def handleCheckoutCompleted (env : FsEnv) (store : Option CaseDoc)
    (clientRef : Option String) (paymentIntent : Option String) (t : Int) :
    PayEffects :=
  if !jsTruthy clientRef then ⟨store, [], [], []⟩
  else if !env.getOk then ⟨store, [], [], []⟩
  else
    match store with
    | none => ⟨store, [], [], []⟩
    | some d =>
      if !env.updateOk then ⟨store, [], [], []⟩
      else
        let d1 := checkoutCompletedUpdate d paymentIntent t
        let es := completedEmailStep env d1 d.email
        let ss := completedSmsStep env es.1 (shouldSendSms d)
        ⟨some ss.1, es.2, ss.2, []⟩

/-- The failure-email block of the payment-failure handler (its inner
try/catch): attempted exactly when the resolved recipient is truthy; only a
successful send is logged onto emailsSent. -/
def failedEmailStep (env : FsEnv) (d1 : CaseDoc) (recipientEmail : Option String) :
    CaseDoc × List PayAttempt :=
  if jsTruthy recipientEmail then
    let toAddr := recipientEmail.getD ""
    let att := [(⟨toAddr, "payment_failed"⟩ : PayAttempt)]
    match env.emailSend with
    | .error _ => (d1, att)
    | .ok r =>
      if r.success then
        (if env.logUpdateOk then
           { d1 with emailsSent :=
               arrayUnion d1.emailsSent ⟨"payment_failed", toAddr, "sent", none⟩ }
         else d1, att)
      else (d1, att)
  else (d1, [])

/-- The conditional SMS block of the payment-failure handler (its inner
try/catch): attempted per shouldSendSms; only a successful send is logged. -/
def failedSmsStep (env : FsEnv) (d2 : CaseDoc) (check : SmsCheck) :
    CaseDoc × List String :=
  if check.shouldSend && jsTruthy check.phoneNumber then
    let p := check.phoneNumber.getD ""
    match env.smsSend with
    | .error _ => (d2, [p])
    | .ok r =>
      if r.success then
        (if env.logUpdateOk then
           { d2 with smsSent :=
               arrayUnion d2.smsSent ⟨"payment_failed", p, "sent", none⟩ }
         else d2, [p])
      else (d2, [p])
  else (d2, [])

/-- The shared handler of checkout.session.async_payment_failed and
payment_intent.payment_failed.  A missing client reference is a logged
no-op.  The contact email is resolved as the root email field, falling back
to the nested extractedData email; the billing email supplied on the failed
session object is accepted as an argument but never read, and no resolved
email is written back onto the case.  The admin alert is created after the
email and SMS blocks, whose failures are caught locally, so it is created
regardless of the send outcomes; a successful creation is linked onto the
case when that link update works. -/
def handleFailedPayment (env : FsEnv) (store : Option CaseDoc)
    (clientRef : Option String) (lastErrMsg : Option String)
    (billingEmail : Option String) (t : Int) : PayEffects :=
  if !jsTruthy clientRef then ⟨store, [], [], []⟩
  else
    let errorReason := (jsOr lastErrMsg (some "Payment failed")).getD ""
    if !env.getOk then ⟨store, [], [], []⟩
    else
      match store with
      | none => ⟨store, [], [], []⟩
      | some d =>
        if !env.updateOk then ⟨store, [], [], []⟩
        else
          let d1 := paymentFailedUpdate d errorReason t
          let recipientEmail := jsOr d.email (d.extractedData.bind (·.email))
          let es := failedEmailStep env d1 recipientEmail
          let ss := failedSmsStep env es.1 (shouldSendSms d)
          if env.alertCreateOk then
            ⟨some (if env.logUpdateOk then
                     { ss.1 with adminAlerts :=
                         arrayUnion ss.1.adminAlerts env.alertId }
                   else ss.1),
             es.2, ss.2, [createPaymentFailedAlert d errorReason]⟩
          else ⟨some ss.1, es.2, ss.2, []⟩

/-- The Stripe events the webhook route distinguishes, with the session or
payment-intent fields the handlers can reach. -/
inductive StripeEvent where
  | checkoutCompleted (clientRef : Option String) (paymentIntent : Option String)
  | asyncPaymentFailed (clientRef : Option String) (lastErrMsg : Option String)
      (billingEmail : Option String)
  | paymentIntentFailed (clientRef : Option String) (lastErrMsg : Option String)
      (billingEmail : Option String)
  | checkoutExpired
  | otherEvent (name : String)
deriving DecidableEq, Repr

/-- The switch over event types: completed and the two failure events go to
their handlers, while checkout.session.expired and unrecognized events only
log and change nothing. -/
def dispatchEvent (env : FsEnv) (store : Option CaseDoc) (ev : StripeEvent)
    (t : Int) : PayEffects :=
  match ev with
  | .checkoutCompleted cr pi => handleCheckoutCompleted env store cr pi t
  | .asyncPaymentFailed cr m b => handleFailedPayment env store cr m b t
  | .paymentIntentFailed cr m b => handleFailedPayment env store cr m b t
  | .checkoutExpired => ⟨store, [], [], []⟩
  | .otherEvent _ => ⟨store, [], [], []⟩

/-- The HTTP response of the webhook route: the status code and whether the
body was the received-true acknowledgement. -/
structure HttpResponse where
  statusCode : Nat
  receivedTrue : Bool
deriving DecidableEq, Repr

/-- The POST /api/stripe-webhook route: a signature-verification failure
returns 400 before any handling; otherwise the event is dispatched — every
throwing operation of the handlers sits inside their try/catch blocks — and
the route unconditionally acknowledges with 200 and received true. -/
def stripeWebhook (verify : Except String StripeEvent) (env : FsEnv)
    (store : Option CaseDoc) (t : Int) : HttpResponse × PayEffects :=
  match verify with
  | .error _ => (⟨400, false⟩, ⟨store, [], [], []⟩)
  | .ok ev => (⟨200, true⟩, dispatchEvent env store ev t)

/-! ## Concrete documents and tasks used by the theorems -/

/-- A document in the approval_pending status with a valid email. -/
def docA : CaseDoc := { caseStatus := some "approval_pending", email := some "a@b.com" }

/-- The same document after an external transition to case_approved. -/
def docB : CaseDoc := { caseStatus := some "case_approved", email := some "a@b.com" }

/-- One modified-event for case-1 (docA to docB) fired at time 0. -/
def taskAB : DetTask := ⟨"case-1", some docA, some docB, 0⟩

/-- Six valid modified-events for case-2 within ten seconds, alternating
between the two statuses so every transition passes the validation gate. -/
def c3tasks : List DetTask :=
  [⟨"case-2", some docA, some docB, 0⟩,
   ⟨"case-2", some docB, some docA, 2000⟩,
   ⟨"case-2", some docA, some docB, 4000⟩,
   ⟨"case-2", some docB, some docA, 6000⟩,
   ⟨"case-2", some docA, some docB, 8000⟩,
   ⟨"case-2", some docB, some docA, 10000⟩]

/-- A paid-up-front pending case as created by saveToFirestore. -/
def payDoc : CaseDoc :=
  { caseStatus := some "approval_pending", paymentStatus := some "pending",
    email := some "a@b.com", sessionId := some "abc123",
    statusHistory := [⟨"approval_pending", 0, none,
      some "Ticket uploaded and AI extraction completed", some "system"⟩] }

/-- A pending case with no email anywhere (neither root nor extracted). -/
def payDocNoEmail : CaseDoc :=
  { paymentStatus := some "pending", sessionId := some "abc123",
    extractedData := some {} }

/-- A pending case whose only address sits in the extracted data. -/
def c8doc : CaseDoc :=
  { paymentStatus := some "pending", sessionId := some "abc123",
    extractedData := some { email := some "x@y.com" } }

/-- A document whose caseStatus is not one of the six recognized values. -/
def docBogus : CaseDoc :=
  { caseStatus := some "bogus_status", email := some "a@b.com" }

/-- A modified-event for case-3 whose new document carries the
unrecognized status (the validation gate would reject it, were it ever
reached). -/
def taskBogus : DetTask := ⟨"case-3", some docA, some docBogus, 0⟩

/-- The case created by saveToFirestore on a fresh document. -/
def c1doc0 : CaseDoc :=
  saveToFirestore none "abc123" "u1" {} "t.jpg" (some "a@b.com")
    "ai_extraction" 0

/-- The created case after the payment-success update. -/
def c1doc1 : CaseDoc := checkoutCompletedUpdate c1doc0 (some "pi_1") 5

/-- The effects of one fully successful Notifier run on docB. -/
def effB : NotifyEffects :=
  ⟨⟨true, 1, [], none⟩, "a@b.com", false, none,
   ⟨"email_sent", "case-1", "case_approved", "**@b.com"⟩⟩

/-! ## Claims -/

/-- C9 counterexample: maskEmail applied to johndoe at x.com yields
jo*(at)x.com in the Notifier in use and jo*****(at)x.com in the hardened
variant — neither is the jo***(at)x.com form the claim states. -/
theorem C9_maskEmail_counterexample :
    maskEmail "johndoe@x.com" = "jo*@x.com" ∧
    maskEmail "johndoe@x.com" ≠ "jo***@x.com" ∧
    maskEmailSecure "johndoe@x.com" = "jo*****@x.com" ∧
    maskEmailSecure "johndoe@x.com" ≠ "jo***@x.com" := by
  decide

/-- C9 amended: maskEmail keeps the domain and at most the first two
characters of the local part; two-character local parts become two
asterisks; longer local parts keep the first two characters and the
remainder collapses to a single asterisk in the Notifier in use
(jo*(at)x.com) and to one asterisk per hidden character in the hardened
variant (jo*****(at)x.com); and every notification-log record written by a
successful Notifier run stores the masked address, never the raw one. -/
theorem C9_maskEmail_amended :
    maskEmail "jo@x.com" = "**@x.com" ∧
    maskEmail "johndoe@x.com" = "jo*@x.com" ∧
    maskEmailSecure "jo@x.com" = "**@x.com" ∧
    maskEmailSecure "johndoe@x.com" = "jo*****@x.com" ∧
    ∀ (status : String) (caseData : CaseDoc) (caseId : String)
      (gw : Nat → Option String) (now : Int) (eff : NotifyEffects),
      sendForStatus status caseData caseId gw now = .ok eff →
      eff.notifLog.maskedEmail = maskEmail (caseData.email.getD "") := by
  refine ⟨by decide, by decide, by decide, by decide, ?_⟩
  intro status caseData caseId gw now eff h
  unfold sendForStatus at h
  cases hv : validateInputs status caseData with
  | error e => rw [hv] at h; exact Except.noConfusion h
  | ok u =>
    rw [hv] at h
    cases ht : getTemplateSubject status with
    | none => rw [ht] at h; exact Except.noConfusion h
    | some sub =>
      rw [ht] at h
      dsimp only at h
      split at h
      · exact Except.noConfusion h
      · cases h
        rfl

/-- C9 witness: the amended masking theorem applied to a concrete
successful Notifier run. -/
theorem C9_maskEmail_witness :
    sendForStatus "case_approved" docB "case-1" (fun _ => none) 0 =
      .ok effB ∧
    effB.notifLog.maskedEmail = maskEmail "a@b.com" :=
  ⟨by rfl,
   C9_maskEmail_amended.2.2.2.2 "case_approved" docB "case-1"
     (fun _ => none) 0 effB (by rfl)⟩

/-- C10: a webhook request failing signature verification gets a 400; a
verified request is acknowledged with 200 and received true for every
store content and every combination of downstream outcomes (missing case,
throwing Firestore get/update, failing or throwing email/SMS sends,
failing alert creation). -/
theorem C10_webhook_always_acks :
    ∀ (verify : Except String StripeEvent) (env : FsEnv)
      (store : Option CaseDoc) (t : Int),
      ((∃ msg, verify = .error msg) →
        (stripeWebhook verify env store t).1 = ⟨400, false⟩) ∧
      (∀ ev, verify = .ok ev →
        (stripeWebhook verify env store t).1 = ⟨200, true⟩) := by
  intro verify env store t
  constructor
  · rintro ⟨msg, rfl⟩
    rfl
  · rintro ev rfl
    rfl

/-- C10 witness: a bad signature gets 400; a verified checkout event gets
200 and received true even while the email gateway is down. -/
theorem C10_webhook_witness :
    (stripeWebhook (.error "bad signature") {} none 0).1 = ⟨400, false⟩ ∧
    (stripeWebhook (.ok (.checkoutCompleted (some "abc123") (some "pi_1")))
        { emailSend := .error "gateway down" } (some payDoc) 5).1 =
      ⟨200, true⟩ :=
  ⟨(C10_webhook_always_acks _ _ _ _).1 ⟨"bad signature", rfl⟩,
   (C10_webhook_always_acks _ _ _ _).2 _ rfl⟩

/-- C2: code bug.  The idempotency claim presumes the notification
pipeline runs, but every modified event throws a TypeError at the
change.doc.previous.data() read before validation or dispatch: no
invocation ever dispatches a notification, writes an audit record, or
leaves the case ID behind in the processing set, and firing two
synchronous modified-events for case-1 yields zero send attempts and two
status_processing_error admin alerts instead of the claimed single
attempt. -/
theorem C2_idempotency_code_bug :
    (∀ (s : DetState) (t : DetTask),
      (processStatusChange s t).dispatches = s.dispatches ∧
      (processStatusChange s t).audits = s.audits ∧
      (processStatusChange s t).processingIds = s.processingIds) ∧
    runEvents ⟨[], [], [], [], []⟩ [taskAB, taskAB] =
      ⟨[], [], [], [],
       [⟨"status_processing_error", "case-1", previousReadMsg⟩,
        ⟨"status_processing_error", "case-1", previousReadMsg⟩]⟩ := by
  constructor
  · intro s t
    unfold processStatusChange
    repeat' split
    all_goals exact ⟨rfl, rfl, rfl⟩
  · decide

/-- C2 witness: the no-dispatch rule evaluated at a concrete state and one
of the two events. -/
theorem C2_idempotency_code_bug_witness :
    (processStatusChange ⟨["case-1"], [], [], [], []⟩ taskAB).dispatches = [] :=
  (C2_idempotency_code_bug.1 ⟨["case-1"], [], [], [], []⟩ taskAB).1

/-- C3: code bug.  The rate-limit claim presumes validated transitions are
recorded in the window, but updateRateLimit sits after the throwing
change.doc.previous.data() read and is never reached: the per-case window
never gains a timestamp, and six valid modified-events for case-2 within
ten seconds yield zero notification attempts and six
status_processing_error admin alerts, not five attempts with the sixth
dropped. -/
theorem C3_rate_limit_code_bug :
    (∀ (s : DetState) (t : DetTask),
      (processStatusChange s t).rateLimit = s.rateLimit) ∧
    runEvents ⟨[], [], [], [], []⟩ c3tasks =
      ⟨[], [], [], [],
       [⟨"status_processing_error", "case-2", previousReadMsg⟩,
        ⟨"status_processing_error", "case-2", previousReadMsg⟩,
        ⟨"status_processing_error", "case-2", previousReadMsg⟩,
        ⟨"status_processing_error", "case-2", previousReadMsg⟩,
        ⟨"status_processing_error", "case-2", previousReadMsg⟩,
        ⟨"status_processing_error", "case-2", previousReadMsg⟩]⟩ := by
  constructor
  · intro s t
    unfold processStatusChange
    repeat' split
    all_goals rfl
  · decide

/-- C3 witness: the window-never-updated rule evaluated at a concrete
state that already holds one timestamp. -/
theorem C3_rate_limit_code_bug_witness :
    (processStatusChange ⟨[], [("case-2", [0])], [], [], []⟩
        ⟨"case-2", some docA, some docB, 2000⟩).rateLimit =
      [("case-2", [0])] :=
  C3_rate_limit_code_bug.1 ⟨[], [("case-2", [0])], [], [], []⟩
    ⟨"case-2", some docA, some docB, 2000⟩

/-- arrayUnion never removes elements. -/
lemma arrayUnion_length_ge {α : Type} [DecidableEq α] (xs : List α) (x : α) :
    xs.length ≤ (arrayUnion xs x).length := by
  unfold arrayUnion
  split
  · exact le_rfl
  · simp

/-- arrayUnion of a genuinely new element is an append. -/
lemma arrayUnion_not_mem {α : Type} [DecidableEq α] {xs : List α} {x : α}
    (h : x ∉ xs) : arrayUnion xs x = xs ++ [x] := by
  unfold arrayUnion
  rw [if_neg h]

/-- C1 counterexample: after creating a case and applying the
payment-success update, caseStatus is submitted_for_review while the last
statusHistory entry has status payment_received, so the stated invariant
fails immediately after that write; and re-running saveToFirestore on the
same case shrinks statusHistory back to one entry, so the length does not
only grow either. -/
theorem C1_invariant_counterexample :
    c1doc1.caseStatus = some "submitted_for_review" ∧
    lastHistoryStatus c1doc1 = some "payment_received" ∧
    c1doc1.caseStatus ≠ lastHistoryStatus c1doc1 ∧
    (saveToFirestore (some c1doc1) "abc123" "u1" {} "t.jpg" (some "a@b.com")
        "ai_extraction" 9).statusHistory.length < c1doc1.statusHistory.length := by
  decide

/-- C1 amended: case creation establishes the invariant (caseStatus
approval_pending equal to the status of the single history entry).  The
payment-success and payment-failure updates never shrink statusHistory and
append exactly one entry whenever the appended entry is new, but neither
re-establishes the correspondence: the success update sets caseStatus to
submitted_for_review while appending a payment_received entry, and the
failure update leaves caseStatus unchanged while appending a payment_failed
entry.  Moreover saveToFirestore applied to an existing document resets
statusHistory to a single entry. -/
theorem C1_invariant_amended :
    (∀ (sid uid fn ds : String) (ex : ExtractedData) (em : Option String) (t : Int),
      (saveToFirestore none sid uid ex fn em ds t).caseStatus =
        some "approval_pending" ∧
      lastHistoryStatus (saveToFirestore none sid uid ex fn em ds t) =
        some "approval_pending" ∧
      (saveToFirestore none sid uid ex fn em ds t).statusHistory.length = 1) ∧
    (∀ (d : CaseDoc) (pi : Option String) (t : Int),
      d.statusHistory.length ≤ (checkoutCompletedUpdate d pi t).statusHistory.length ∧
      (checkoutCompletedUpdate d pi t).caseStatus = some "submitted_for_review" ∧
      ((⟨"payment_received", t, some "Customer completed payment via Stripe.",
          none, none⟩ : HistEntry) ∉ d.statusHistory →
        (checkoutCompletedUpdate d pi t).statusHistory.length =
          d.statusHistory.length + 1 ∧
        lastHistoryStatus (checkoutCompletedUpdate d pi t) =
          some "payment_received")) ∧
    (∀ (d : CaseDoc) (er : String) (t : Int),
      d.statusHistory.length ≤ (paymentFailedUpdate d er t).statusHistory.length ∧
      (paymentFailedUpdate d er t).caseStatus = d.caseStatus ∧
      (paymentFailedUpdate d er t).paymentStatus = some "failed" ∧
      ((⟨"payment_failed", t, some ("Payment failed: " ++ er),
          none, none⟩ : HistEntry) ∉ d.statusHistory →
        (paymentFailedUpdate d er t).statusHistory.length =
          d.statusHistory.length + 1 ∧
        lastHistoryStatus (paymentFailedUpdate d er t) = some "payment_failed")) ∧
    (∀ (d : CaseDoc) (sid uid fn ds : String) (ex : ExtractedData)
       (em : Option String) (t : Int),
      (saveToFirestore (some d) sid uid ex fn em ds t).statusHistory.length = 1) := by
  refine ⟨?_, ?_, ?_, ?_⟩
  · intro sid uid fn ds ex em t
    unfold saveToFirestore
    refine ⟨rfl, ?_, rfl⟩
    simp [lastHistoryStatus]
  · intro d pi t
    refine ⟨?_, rfl, ?_⟩
    · exact arrayUnion_length_ge _ _
    · intro hfresh
      constructor
      · show (arrayUnion d.statusHistory _).length = _
        rw [arrayUnion_not_mem hfresh]
        simp
      · show ((arrayUnion d.statusHistory _).getLast?).map (fun e => e.status) = _
        rw [arrayUnion_not_mem hfresh, List.getLast?_concat]
        rfl
  · intro d er t
    refine ⟨?_, rfl, rfl, ?_⟩
    · exact arrayUnion_length_ge _ _
    · intro hfresh
      constructor
      · show (arrayUnion d.statusHistory _).length = _
        rw [arrayUnion_not_mem hfresh]
        simp
      · show ((arrayUnion d.statusHistory _).getLast?).map (fun e => e.status) = _
        rw [arrayUnion_not_mem hfresh, List.getLast?_concat]
        rfl
  · intro d sid uid fn ds ex em t
    rfl

/-- C1 witness: the amended payment-success clause applied to the freshly
created case. -/
theorem C1_invariant_witness :
    (checkoutCompletedUpdate c1doc0 (some "pi_1") 5).statusHistory.length =
      c1doc0.statusHistory.length + 1 ∧
    lastHistoryStatus (checkoutCompletedUpdate c1doc0 (some "pi_1") 5) =
      some "payment_received" :=
  (C1_invariant_amended.2.1 c1doc0 (some "pi_1") 5).2.2 (by decide)

/-- C4: code bug.  The validation-gate claim presumes changes reach
isValidStatusChange, but the gate sits after the throwing
change.doc.previous.data() read: the handler result is independent of the
document contents; a change whose new document carries the unrecognized
status bogus_status — which the gate, were it reached, would reject —
still produces a status_processing_error admin alert, contradicting
logged-and-dropped with no alert, and nothing is ever dispatched to the
Notifier. -/
theorem C4_validation_code_bug :
    (∀ (s : DetState) (o₁ n₁ o₂ n₂ : Option CaseDoc) (cid : String)
       (time : Int),
      processStatusChange s ⟨cid, o₁, n₁, time⟩ =
        processStatusChange s ⟨cid, o₂, n₂, time⟩) ∧
    isValidStatusChange (some docA) (some docBogus) = false ∧
    runEvents ⟨[], [], [], [], []⟩ [taskBogus] =
      ⟨[], [], [], [],
       [⟨"status_processing_error", "case-3", previousReadMsg⟩]⟩ := by
  refine ⟨?_, by decide, by decide⟩
  intro s o₁ n₁ o₂ n₂ cid time
  rfl

/-- C4 witness: the contents-independence rule evaluated at the
bogus-status change against the reversed change. -/
theorem C4_validation_code_bug_witness :
    processStatusChange ⟨[], [], [], [], []⟩ taskBogus =
      processStatusChange ⟨[], [], [], [], []⟩
        ⟨"case-3", some docBogus, some docA, 0⟩ :=
  C4_validation_code_bug.1 ⟨[], [], [], [], []⟩ (some docA) (some docBogus)
    (some docBogus) (some docA) "case-3" 0

/-- The retry loop never makes more attempts than its fuel allows. -/
lemma retryFrom_attempts_le (gw : Nat → Option String) (m : Nat) :
    ∀ fuel a, (retryFrom gw m fuel a).attempts ≤ fuel := by
  intro fuel
  induction fuel with
  | zero => intro a; simp [retryFrom]
  | succ f ih =>
    intro a
    unfold retryFrom
    cases gw a with
    | none => simp
    | some e =>
      dsimp only
      split
      · simp
      · simpa using Nat.succ_le_succ (ih (a + 1))

/-- With an always-failing gateway, the loop makes exactly three attempts,
sleeps 2 and 4 seconds between them, and ends carrying the error of the
third attempt. -/
lemma sendEmailWithRetry_allfail (gw : Nat → Option String)
    (h : ∀ n, (gw n).isSome) :
    sendEmailWithRetry gw 3 = ⟨false, 3, [2000, 4000], gw 3⟩ := by
  obtain ⟨e1, h1⟩ := Option.isSome_iff_exists.mp (h 1)
  obtain ⟨e2, h2⟩ := Option.isSome_iff_exists.mp (h 2)
  obtain ⟨e3, h3⟩ := Option.isSome_iff_exists.mp (h 3)
  simp [sendEmailWithRetry, retryFrom, h1, h2, h3]

/-- A recognized status has a template. -/
lemma getTemplateSubject_isSome {status : String}
    (h : validStatuses.contains status = true) :
    (getTemplateSubject status).isSome := by
  have hmem : status ∈ validStatuses := by simpa using h
  fin_cases hmem <;> rfl

/-- validateInputs succeeds only for a recognized status. -/
lemma validateInputs_status {status : String} {caseData : CaseDoc}
    (h : validateInputs status caseData = .ok ()) :
    validStatuses.contains status = true := by
  cases hc : validStatuses.contains status
  · unfold validateInputs at h
    rw [hc] at h
    simp at h
  · rfl

/-- With valid inputs and an always-failing gateway, the Notifier rethrows
the error of the last (third) gateway attempt. -/
lemma sendForStatus_allfail (status : String) (caseData : CaseDoc)
    (caseId : String) (gw : Nat → Option String) (now : Int)
    (hv : validateInputs status caseData = .ok ())
    (hg : ∀ n, (gw n).isSome) :
    sendForStatus status caseData caseId gw now =
      .error ((gw 3).getD "") := by
  obtain ⟨sub, hsub⟩ := Option.isSome_iff_exists.mp
    (getTemplateSubject_isSome (validateInputs_status hv))
  unfold sendForStatus
  rw [hv, hsub]
  dsimp only
  rw [sendEmailWithRetry_allfail gw hg]
  rfl

/-- C5: each Notifier invocation attempts the email send at most 3 times;
a non-final failure is retried after a 2000 * attempt millisecond backoff
(2 s after the first failure, 4 s after the second); an always-failing
gateway exhausts exactly 3 attempts with backoffs of 2 and 4 seconds and
raises the last gateway error to the caller; and when both the original
and the 5-second-later fallback Notifier runs exhaust their gateway
attempts, the Detector converts the failure into exactly one
status_processing_error admin alert carrying the case ID and the message
of the last gateway error. -/
theorem C5_retry_and_alert :
    (∀ gw : Nat → Option String, (sendEmailWithRetry gw 3).attempts ≤ 3) ∧
    (∀ (gw : Nat → Option String) (e : String), gw 1 = some e → gw 2 = none →
      sendEmailWithRetry gw 3 = ⟨true, 2, [2000], none⟩) ∧
    (∀ gw : Nat → Option String, (∀ n, (gw n).isSome) →
      sendEmailWithRetry gw 3 = ⟨false, 3, [2000, 4000], gw 3⟩) ∧
    (∀ (status : String) (caseData : CaseDoc) (caseId : String)
       (gw : Nat → Option String) (now : Int),
      validateInputs status caseData = .ok () → (∀ n, (gw n).isSome) →
      sendForStatus status caseData caseId gw now = .error ((gw 3).getD "")) ∧
    (∀ (status : String) (caseData : CaseDoc) (caseId : String)
       (gw1 gw2 : Nat → Option String) (now : Int),
      validateInputs status caseData = .ok () →
      (∀ n, (gw1 n).isSome) → (∀ n, (gw2 n).isSome) →
      dispatchNotifications status caseData caseId gw1 gw2 now =
        [⟨"status_processing_error", caseId, (gw2 3).getD ""⟩]) := by
  refine ⟨?_, ?_, ?_, ?_, ?_⟩
  · intro gw
    exact retryFrom_attempts_le gw 3 3 1
  · intro gw e h1 h2
    simp [sendEmailWithRetry, retryFrom, h1, h2]
  · intro gw hg
    exact sendEmailWithRetry_allfail gw hg
  · intro status caseData caseId gw now hv hg
    exact sendForStatus_allfail status caseData caseId gw now hv hg
  · intro status caseData caseId gw1 gw2 now hv hg1 hg2
    unfold dispatchNotifications sendNotificationsAsync
    rw [sendForStatus_allfail status caseData caseId gw1 now hv hg1]
    dsimp only
    rw [sendForStatus_allfail status caseData caseId gw2 (now + 5000) hv hg2]

/-- C5 witness: the alert clause applied to concrete always-failing
gateways. -/
theorem C5_retry_witness :
    validateInputs "case_approved" docB = .ok () ∧
    dispatchNotifications "case_approved" docB "case-1"
        (fun _ => some "gateway down") (fun _ => some "still down") 0 =
      [⟨"status_processing_error", "case-1", "still down"⟩] :=
  ⟨by rfl,
   C5_retry_and_alert.2.2.2.2 "case_approved" docB "case-1"
     (fun _ => some "gateway down") (fun _ => some "still down") 0 (by rfl)
     (fun _ => rfl) (fun _ => rfl)⟩

/-- The completed-handler email block only ever touches the emailsSent log
of the document, and attempts the email exactly when the address is truthy. -/
lemma completedEmailStep_spec (env : FsEnv) (d1 : CaseDoc) (em : Option String) :
    ∃ el, completedEmailStep env d1 em =
      ({ d1 with emailsSent := el },
       if jsTruthy em then [⟨em.getD "", "payment_success"⟩] else []) := by
  unfold completedEmailStep
  repeat' split
  all_goals exact ⟨_, rfl⟩

/-- The completed-handler SMS block only ever touches the smsSent log of
the document, and attempts the SMS exactly when shouldSendSms allows it. -/
lemma completedSmsStep_spec (env : FsEnv) (d2 : CaseDoc) (check : SmsCheck) :
    ∃ sl, completedSmsStep env d2 check =
      ({ d2 with smsSent := sl },
       if check.shouldSend && jsTruthy check.phoneNumber then
         [check.phoneNumber.getD ""] else []) := by
  unfold completedSmsStep
  repeat' split
  all_goals exact ⟨_, rfl⟩

/-- The failure-handler email block only ever touches the emailsSent log
of the document, and attempts the email exactly when the resolved address
is truthy. -/
lemma failedEmailStep_spec (env : FsEnv) (d1 : CaseDoc) (em : Option String) :
    ∃ el, failedEmailStep env d1 em =
      ({ d1 with emailsSent := el },
       if jsTruthy em then [⟨em.getD "", "payment_failed"⟩] else []) := by
  unfold failedEmailStep
  repeat' split
  all_goals exact ⟨_, rfl⟩

/-- The failure-handler SMS block only ever touches the smsSent log of the
document, and attempts the SMS exactly when shouldSendSms allows it. -/
lemma failedSmsStep_spec (env : FsEnv) (d2 : CaseDoc) (check : SmsCheck) :
    ∃ sl, failedSmsStep env d2 check =
      ({ d2 with smsSent := sl },
       if check.shouldSend && jsTruthy check.phoneNumber then
         [check.phoneNumber.getD ""] else []) := by
  unfold failedSmsStep
  repeat' split
  all_goals exact ⟨_, rfl⟩

/-- Under a reachable client reference and working Firestore get/update,
the completed handler stores the payment-success update (with some send
logs), attempts the success email exactly when the pre-update document has
a truthy email, attempts the SMS exactly when shouldSendSms allows it, and
creates no alert. -/
lemma handleCheckoutCompleted_run (env : FsEnv) (d : CaseDoc)
    (cr pi : Option String) (t : Int) (hcr : jsTruthy cr = true)
    (hget : env.getOk = true) (hupd : env.updateOk = true) :
    ∃ el sl, handleCheckoutCompleted env (some d) cr pi t =
      ⟨some { checkoutCompletedUpdate d pi t with emailsSent := el, smsSent := sl },
       (if jsTruthy d.email then [⟨d.email.getD "", "payment_success"⟩] else []),
       (if (shouldSendSms d).shouldSend && jsTruthy (shouldSendSms d).phoneNumber
          then [(shouldSendSms d).phoneNumber.getD ""] else []),
       []⟩ := by
  obtain ⟨el, hE⟩ :=
    completedEmailStep_spec env (checkoutCompletedUpdate d pi t) d.email
  obtain ⟨sl, hS⟩ :=
    completedSmsStep_spec env
      (completedEmailStep env (checkoutCompletedUpdate d pi t) d.email).1
      (shouldSendSms d)
  refine ⟨el, sl, ?_⟩
  unfold handleCheckoutCompleted
  rw [if_neg (by simp [hcr])]
  try dsimp only
  rw [if_neg (by simp [hget])]
  try dsimp only
  rw [if_neg (by simp [hupd])]
  try dsimp only
  rw [hS, hE]

/-- Under a present client reference and working Firestore get/update, the
failure handler stores the payment-failed update (with some send logs and
alert links), attempts the failure email exactly when root-or-extracted
email resolution is truthy, attempts the SMS per shouldSendSms, and
creates the payment_failed alert exactly when alert creation works. -/
lemma handleFailedPayment_run (env : FsEnv) (d : CaseDoc)
    (cr m b : Option String) (t : Int) (hcr : jsTruthy cr = true)
    (hget : env.getOk = true) (hupd : env.updateOk = true) :
    ∃ el sl al, handleFailedPayment env (some d) cr m b t =
      ⟨some { paymentFailedUpdate d ((jsOr m (some "Payment failed")).getD "") t with
              emailsSent := el, smsSent := sl, adminAlerts := al },
       (if jsTruthy (jsOr d.email (d.extractedData.bind (·.email))) then
          [⟨(jsOr d.email (d.extractedData.bind (·.email))).getD "",
            "payment_failed"⟩]
        else []),
       (if (shouldSendSms d).shouldSend && jsTruthy (shouldSendSms d).phoneNumber
          then [(shouldSendSms d).phoneNumber.getD ""] else []),
       (if env.alertCreateOk then
          [createPaymentFailedAlert d ((jsOr m (some "Payment failed")).getD "")]
        else [])⟩ := by
  obtain ⟨el, hE⟩ :=
    failedEmailStep_spec env
      (paymentFailedUpdate d ((jsOr m (some "Payment failed")).getD "") t)
      (jsOr d.email (d.extractedData.bind (·.email)))
  obtain ⟨sl, hS⟩ :=
    failedSmsStep_spec env
      (failedEmailStep env
        (paymentFailedUpdate d ((jsOr m (some "Payment failed")).getD "") t)
        (jsOr d.email (d.extractedData.bind (·.email)))).1
      (shouldSendSms d)
  unfold handleFailedPayment
  rw [if_neg (by simp [hcr])]
  try dsimp only
  rw [if_neg (by simp [hget])]
  try dsimp only
  rw [if_neg (by simp [hupd])]
  try dsimp only
  by_cases ha : env.alertCreateOk = true
  · rw [if_pos ha, if_pos ha]
    by_cases hl : env.logUpdateOk = true
    · rw [if_pos hl]
      exact ⟨el, sl, _, by rw [hS, hE]⟩
    · rw [if_neg hl]
      exact ⟨el, sl, _, by rw [hS, hE]⟩
  · rw [if_neg ha, if_neg ha]
    exact ⟨el, sl, _, by rw [hS, hE]⟩

/-- C6 counterexample: a pending case with no email gets zero success email
attempts from the completed handler, not exactly one. -/
theorem C6_payment_success_counterexample :
    payDocNoEmail.paymentStatus = some "pending" ∧
    jsTruthy payDocNoEmail.email = false ∧
    (handleCheckoutCompleted {} (some payDocNoEmail) (some "abc123")
        (some "pi_1") 5).emails = [] := by
  decide

/-- C6 amended: applying the verified checkout-completed event to a pending
case (with the handler able to read and update the store) sets
paymentStatus to paid, advances caseStatus to submitted_for_review, grows
statusHistory by exactly one entry (status payment_received), and attempts
exactly one payment-success email when the case has a truthy email — and
none otherwise. -/
theorem C6_payment_success_amended :
    ∀ (d : CaseDoc) (env : FsEnv) (cr pi : Option String) (t : Int),
      d.paymentStatus = some "pending" →
      jsTruthy cr = true → env.getOk = true → env.updateOk = true →
      ((⟨"payment_received", t, some "Customer completed payment via Stripe.",
          none, none⟩ : HistEntry) ∉ d.statusHistory) →
      ∃ d', (handleCheckoutCompleted env (some d) cr pi t).store = some d' ∧
        d'.paymentStatus = some "paid" ∧
        d'.caseStatus = some "submitted_for_review" ∧
        d'.statusHistory.length = d.statusHistory.length + 1 ∧
        lastHistoryStatus d' = some "payment_received" ∧
        (handleCheckoutCompleted env (some d) cr pi t).emails =
          (if jsTruthy d.email then [⟨d.email.getD "", "payment_success"⟩]
           else []) := by
  intro d env cr pi t hpend hcr hget hupd hfresh
  obtain ⟨el, sl, hrun⟩ := handleCheckoutCompleted_run env d cr pi t hcr hget hupd
  refine ⟨{ checkoutCompletedUpdate d pi t with emailsSent := el, smsSent := sl },
          by rw [hrun], rfl, rfl, ?_, ?_, by rw [hrun]⟩
  · show (arrayUnion d.statusHistory
      ⟨"payment_received", t, some "Customer completed payment via Stripe.",
       none, none⟩).length = d.statusHistory.length + 1
    rw [arrayUnion_not_mem hfresh]
    simp
  · show ((arrayUnion d.statusHistory
      ⟨"payment_received", t, some "Customer completed payment via Stripe.",
       none, none⟩).getLast?).map (fun e => e.status) = some "payment_received"
    rw [arrayUnion_not_mem hfresh, List.getLast?_concat]
    rfl

/-- C6 witness: the amended clause applied to a concrete pending case with
an email. -/
theorem C6_payment_success_witness :
    payDoc.paymentStatus = some "pending" ∧
    ∃ d', (handleCheckoutCompleted {} (some payDoc) (some "abc123")
            (some "pi_1") 5).store = some d' ∧
      d'.paymentStatus = some "paid" ∧
      d'.caseStatus = some "submitted_for_review" ∧
      d'.statusHistory.length = payDoc.statusHistory.length + 1 ∧
      lastHistoryStatus d' = some "payment_received" ∧
      (handleCheckoutCompleted {} (some payDoc) (some "abc123")
          (some "pi_1") 5).emails =
        (if jsTruthy payDoc.email then
           [⟨payDoc.email.getD "", "payment_success"⟩]
         else []) :=
  ⟨rfl, C6_payment_success_amended payDoc {} (some "abc123") (some "pi_1") 5
    rfl rfl rfl rfl (by decide)⟩

/-- C7 counterexample: the checkout.session.expired handler changes nothing
and creates no alert, so an expired event on a pending case neither sets
paymentStatus to failed nor produces a payment_failed admin alert. -/
theorem C7_payment_failure_counterexample :
    (dispatchEvent {} (some payDoc) .checkoutExpired 9).store = some payDoc ∧
    payDoc.paymentStatus = some "pending" ∧
    (dispatchEvent {} (some payDoc) .checkoutExpired 9).alerts = [] := by
  decide

/-- C7 amended: the async-payment-failed and payment_intent-failed events
on an existing referenced case set paymentStatus to failed and create
exactly one payment_failed admin alert regardless of the email or SMS send
outcomes (any emailSend / smsSend result, including thrown errors), while
the checkout.session.expired event performs no state change and creates no
alert. -/
theorem C7_payment_failure_amended :
    (∀ (env : FsEnv) (store : Option CaseDoc) (t : Int),
      dispatchEvent env store .checkoutExpired t = ⟨store, [], [], []⟩) ∧
    (∀ (env : FsEnv) (d : CaseDoc) (cr m b : Option String) (t : Int),
      jsTruthy cr = true → env.getOk = true → env.updateOk = true →
      env.alertCreateOk = true →
      (handleFailedPayment env (some d) cr m b t).alerts =
        [⟨"payment_failed", d.sessionId, d.email,
          (jsOr m (some "Payment failed")).getD ""⟩] ∧
      ∃ d', (handleFailedPayment env (some d) cr m b t).store = some d' ∧
        d'.paymentStatus = some "failed") := by
  constructor
  · intro env store t
    rfl
  · intro env d cr m b t hcr hget hupd halert
    obtain ⟨el, sl, al, hrun⟩ := handleFailedPayment_run env d cr m b t hcr hget hupd
    constructor
    · rw [hrun]
      dsimp only
      rw [if_pos halert]
      rfl
    · exact ⟨_, by rw [hrun], rfl⟩

/-- C7 witness: the amended clause applied to a concrete failure event
whose email send throws. -/
theorem C7_payment_failure_witness :
    (handleFailedPayment { emailSend := .error "smtp down" } (some payDoc)
        (some "abc123") (some "card declined") none 7).alerts =
      [⟨"payment_failed", payDoc.sessionId, payDoc.email,
        (jsOr (some "card declined") (some "Payment failed")).getD ""⟩] ∧
    ∃ d', (handleFailedPayment { emailSend := .error "smtp down" } (some payDoc)
            (some "abc123") (some "card declined") none 7).store = some d' ∧
      d'.paymentStatus = some "failed" :=
  C7_payment_failure_amended.2 { emailSend := .error "smtp down" } payDoc
    (some "abc123") (some "card declined") none 7 rfl rfl rfl rfl

/-- C8 counterexample: with no root and no extracted email but a
provider-supplied billing email on the failed session, the handler
attempts no email and persists nothing back onto the case — the billing
fallback and the persistence step of the claim do not exist in this
handler. -/
theorem C8_email_resolution_counterexample :
    payDocNoEmail.email = none ∧
    payDocNoEmail.extractedData.bind (fun e => e.email) = none ∧
    (handleFailedPayment {} (some payDocNoEmail) (some "abc123") none
        (some "billing@x.com") 7).emails = [] ∧
    (handleFailedPayment {} (some payDocNoEmail) (some "abc123") none
        (some "billing@x.com") 7).store.map (fun d => d.email) = some none := by
  decide

/-- C8 amended: the failure handler resolves the contact email as the root
email field falling back to the nested extractedData email (first truthy
wins); the provider-supplied billing email is never consulted (the handler
result is independent of it), and the resolved email is never persisted
back onto the case (the stored email field is unchanged). -/
theorem C8_email_resolution_amended :
    (∀ (env : FsEnv) (store : Option CaseDoc) (cr m b1 b2 : Option String)
       (t : Int),
      handleFailedPayment env store cr m b1 t =
        handleFailedPayment env store cr m b2 t) ∧
    (∀ (env : FsEnv) (d : CaseDoc) (cr m b : Option String) (t : Int),
      jsTruthy cr = true → env.getOk = true → env.updateOk = true →
      (handleFailedPayment env (some d) cr m b t).emails =
        (if jsTruthy (jsOr d.email (d.extractedData.bind (fun e => e.email))) then
           [⟨(jsOr d.email (d.extractedData.bind (fun e => e.email))).getD "",
             "payment_failed"⟩]
         else []) ∧
      (handleFailedPayment env (some d) cr m b t).store.map (fun x => x.email) =
        some d.email) := by
  constructor
  · intro env store cr m b1 b2 t
    rfl
  · intro env d cr m b t hcr hget hupd
    obtain ⟨el, sl, al, hrun⟩ := handleFailedPayment_run env d cr m b t hcr hget hupd
    constructor
    · rw [hrun]
    · rw [hrun]
      rfl

/-- C8 witness: the amended clause applied to a case whose only address is
the nested extracted one. -/
theorem C8_email_resolution_witness :
    (handleFailedPayment {} (some c8doc) (some "abc123") none
        (some "billing@x.com") 7).emails =
      (if jsTruthy (jsOr c8doc.email (c8doc.extractedData.bind (fun e => e.email)))
       then [⟨(jsOr c8doc.email
                (c8doc.extractedData.bind (fun e => e.email))).getD "",
              "payment_failed"⟩]
       else []) ∧
    (handleFailedPayment {} (some c8doc) (some "abc123") none
        (some "billing@x.com") 7).store.map (fun x => x.email) =
      some c8doc.email :=
  (C8_email_resolution_amended.2 {} c8doc (some "abc123") none
    (some "billing@x.com") 7 rfl rfl rfl)

end TicketGuy
